import Mathlib

/-!
Shallow embedding of the rag-chat-pocketflow-fastapi backend.

Definitions are translated from the Python sources:
  app/core/session.py, app/api/endpoints/{chat,faq}.py,
  nodes/{chat_query_node,content_processing_node,faq_generation_node,input_node}.py,
  utils/{qdrant_storage,rag_query_engine}.py, app/workers/tasks.py, app/flows.py.
External services (Qdrant, OpenAI/OpenRouter, Redis, Firecrawl, web search)
are abstracted as environment records whose fields stand for the value a
given external call returns (or whether it raises).
-/

namespace RagChat

/-! ### Python string primitives, modelled on lists of characters.

Python `str.split(sep)`: splitting an empty string yields `[""]`; separators
at the ends produce empty pieces. -/

def splitChar (sep : Char) : List Char → List (List Char)
  | [] => [[]]
  | c :: cs =>
    let r := splitChar sep cs
    if c = sep then [] :: r
    else
      match r with
      | [] => [[c]]
      | g :: gs => (c :: g) :: gs

/-- Python `str.lower`, character by character (ASCII range in our inputs). -/
def pyLower (cs : List Char) : List Char := cs.map Char.toLower

/-- Python `str.strip('-')`: remove leading and trailing dashes. -/
def stripDash (cs : List Char) : List Char :=
  ((cs.dropWhile (· == '-')).reverse.dropWhile (· == '-')).reverse

/-- Python `x in s` substring test (contiguous subsequence of characters). -/
def containsSeq (s pat : List Char) : Bool :=
  s.tails.any (fun t => pat.isPrefixOf t)

/-- Characters `urllib.parse` accepts inside a URL scheme. -/
def schemeChar (c : Char) : Bool := c.isAlphanum || c == '+' || c == '-' || c == '.'

/-- `urllib.parse.urlparse(url).netloc`: strip a leading `scheme:` when the
text before the first colon is a valid scheme, then, when the remainder
starts with `//`, take the characters up to the first `/`, `?` or `#`;
otherwise the netloc is empty. -/
def netlocChars (url : List Char) : List Char :=
  let pre := url.takeWhile (fun c => c != ':')
  let hasScheme : Bool :=
    decide (pre.length < url.length) && !pre.isEmpty && pre.all schemeChar &&
      (match pre with | c :: _ => c.isAlpha | [] => false)
  let rest := if hasScheme then url.drop (pre.length + 1) else url
  match rest with
  | '/' :: '/' :: r => r.takeWhile (fun c => c != '/' && c != '?' && c != '#')
  | _ => []

/-- Python `os.path.basename` (posix): the part after the last `/`. -/
def pyBasename (cs : List Char) : List Char := (splitChar '/' cs).getLastD []

namespace QdrantStorage

/-- `_generate_collection_name` from utils/qdrant_storage.py. -/
def generateCollectionName (inputType source userSessionId : String) : String :=
  let sidHead := (splitChar '-' userSessionId.data).headD []
  if inputType = "website" then
    let domain := (netlocChars source.data).map
      (fun c => if c = '.' then '-' else if c = ':' then '-' else c)
    String.mk (pyLower ("web-".data ++ domain ++ "-".data ++ sidHead))
  else if inputType = "pdf" then
    let base := pyBasename source.data
    let stem := (splitChar '.' base).headD []
    let norm := stripDash (stem.map (fun c => if c.isAlphanum then c else '-'))
    String.mk (pyLower ("pdf-".data ++ norm ++ "-".data ++ sidHead))
  else
    String.mk (pyLower ("unknown-".data ++ sidHead))

end QdrantStorage

namespace RagQueryEngine

/-- `_generate_collection_name` from utils/rag_query_engine.py (the query-time
copy of the resolver; the Python body is a duplicate of the one in
utils/qdrant_storage.py). -/
def generateCollectionName (inputType source userSessionId : String) : String :=
  let sidHead := (splitChar '-' userSessionId.data).headD []
  if inputType = "website" then
    let domain := (netlocChars source.data).map
      (fun c => if c = '.' then '-' else if c = ':' then '-' else c)
    String.mk (pyLower ("web-".data ++ domain ++ "-".data ++ sidHead))
  else if inputType = "pdf" then
    let base := pyBasename source.data
    let stem := (splitChar '.' base).headD []
    let norm := stripDash (stem.map (fun c => if c.isAlphanum then c else '-'))
    String.mk (pyLower ("pdf-".data ++ norm ++ "-".data ++ sidHead))
  else
    String.mk (pyLower ("unknown-".data ++ sidHead))

end RagQueryEngine

/-! ### Session data model (app/schemas/models.py `SessionData`) and the
Redis-backed session store (app/core/session.py). Chat-history entries and
retrieval resources are the dictionaries the nodes build. -/

inductive Status
  | processing
  | faqProcessing
  | ready
  | error
deriving DecidableEq, Repr

/-- A retrieval resource dictionary: `{"source": ..., "text_snippet": ...}`. -/
structure Resource where
  source : String
  textSnippet : String
deriving DecidableEq, Repr

/-- One chat-history entry: `{"role", "content", "timestamp"}` plus, for
assistant turns, a `"resources"` list. -/
structure ChatEntry where
  role : String
  content : String
  timestamp : String
  resources : Option (List Resource)
deriving DecidableEq, Repr

/-- One generated FAQ pair `{"question", "answer"}`. -/
structure Faq where
  question : String
  answer : String
deriving DecidableEq, Repr

/-- `SessionData` from app/schemas/models.py, with the pydantic defaults. -/
structure SessionData where
  userSessionId : String
  inputType : Option String
  inputValue : Option String
  processedContent : Option String
  pdfFileContentB64 : Option String
  generatedFaqs : List Faq
  chatHistory : List ChatEntry
  contextIsReady : Bool
  activeNamespaces : List String
  status : Status
  message : String
deriving DecidableEq, Repr

/-- The Redis session store: one optional record per session id key. -/
def Store : Type := String → Option SessionData

def emptyStore : Store := fun _ => none

def insertStore (store : Store) (sid : String) (s : SessionData) : Store :=
  fun k => if k = sid then some s else store k

/-- `get_session` from app/core/session.py. -/
def getSession (store : Store) (sid : String) : Option SessionData := store sid

/-- An `updates` dictionary passed to `update_session`: for each model field,
`none` means the key is absent from the dictionary, `some v` means the
dictionary maps that field name to `v`.  (Callers in this code base also pass
keys such as `current_question` that are not `SessionData` fields; pydantic
keeps them out of the persisted model fields, so they are not represented.) -/
structure SessionUpdates where
  userSessionId : Option String
  inputType : Option (Option String)
  inputValue : Option (Option String)
  processedContent : Option (Option String)
  pdfFileContentB64 : Option (Option String)
  generatedFaqs : Option (List Faq)
  chatHistory : Option (List ChatEntry)
  contextIsReady : Option Bool
  activeNamespaces : Option (List String)
  status : Option Status
  message : Option String
deriving DecidableEq, Repr

/-- The updates dictionary with no keys. -/
def noUpdates : SessionUpdates :=
  { userSessionId := none, inputType := none, inputValue := none,
    processedContent := none, pdfFileContentB64 := none, generatedFaqs := none,
    chatHistory := none, contextIsReady := none, activeNamespaces := none,
    status := none, message := none }

/-- `session_data.model_copy(update=updates)`: replace exactly the fields the
updates dictionary names. -/
def applyUpdates (s : SessionData) (u : SessionUpdates) : SessionData :=
  { userSessionId := u.userSessionId.getD s.userSessionId,
    inputType := u.inputType.getD s.inputType,
    inputValue := u.inputValue.getD s.inputValue,
    processedContent := u.processedContent.getD s.processedContent,
    pdfFileContentB64 := u.pdfFileContentB64.getD s.pdfFileContentB64,
    generatedFaqs := u.generatedFaqs.getD s.generatedFaqs,
    chatHistory := u.chatHistory.getD s.chatHistory,
    contextIsReady := u.contextIsReady.getD s.contextIsReady,
    activeNamespaces := u.activeNamespaces.getD s.activeNamespaces,
    status := u.status.getD s.status,
    message := u.message.getD s.message }

/-- `update_session` from app/core/session.py: read the record, copy it with
the updates applied, write it back; when the record is absent return `None`
and write nothing.  Returns the new store and the returned value. -/
def updateSession (store : Store) (sid : String) (u : SessionUpdates) :
    Store × Option SessionData :=
  match store sid with
  | none => (store, none)
  | some s =>
    let s' := applyUpdates s u
    (insertStore store sid s', some s')

/-- `create_session` from app/core/session.py: a fresh record with the pydantic
defaults (`context_is_ready=False`, `active_namespaces=[]`,
`status="processing"`).  The caller supplies the generated uuid. -/
def createSession (store : Store) (sid : String) (inputType inputValue : String) :
    Store × SessionData :=
  let s : SessionData :=
    { userSessionId := sid, inputType := some inputType, inputValue := some inputValue,
      processedContent := none, pdfFileContentB64 := none, generatedFaqs := [],
      chatHistory := [], contextIsReady := false, activeNamespaces := [],
      status := Status.processing, message := "Session initialized." }
  (insertStore store sid s, s)

/-- Python truthiness of an optional string (`None` and `""` are falsy). -/
def truthy : Option String → Bool
  | none => false
  | some s => s ≠ ""

/-! ### Vector index gateway (utils/qdrant_storage.py).

External calls are recorded as events so that theorems can speak about which
services an operation invoked. -/

/-- One externally visible call to a collaborating service. -/
inductive Event
  | connectQdrant
  | getCollection (name : String)
  | createCollection (name : String)
  | upsertPoints (name : String) (count : Nat)
  | searchCollection (name : String)
  | embedQuery
  | ragCompletionCall
  | webSearchCall
  | llmCall
deriving DecidableEq, Repr

/-- An embedded chunk dictionary `{"source", "text", "embedding"}` (embedding
vectors are abstracted to integer lists; no claim depends on their values). -/
structure EmbChunk where
  source : String
  text : String
  embedding : List Int
deriving DecidableEq, Repr

/-- The Qdrant service as seen by one call: whether the client can be built,
whether `get_collection` succeeds (collection exists), and whether
`create_collection` / `upsert` raise. -/
structure QdrantEnv where
  clientOk : Bool
  collectionExists : String → Bool
  createOk : String → Bool
  upsertOk : String → Bool

/-- `store_embeddings_in_qdrant` helper: lines 118-125 update the session's
`active_namespaces` with the collection name.  Python builds
`list(set(...) | {name})`; we model it as membership-preserving insertion
(the claims only depend on membership and non-emptiness, not on the
unspecified set ordering). -/
def addNamespace (store : Store) (sid : String) (name : String) : Store :=
  match getSession store sid with
  | none => store
  | some s =>
    let ns := if s.activeNamespaces.contains name then s.activeNamespaces
              else s.activeNamespaces ++ [name]
    (updateSession store sid { noUpdates with activeNamespaces := some ns }).1

/-- `store_embeddings_in_qdrant` from utils/qdrant_storage.py.  Returns the
updated store, the boolean result, and the trace of external calls. -/
def storeEmbeddings (env : QdrantEnv) (store : Store) (chunks : List EmbChunk)
    (inputType : String) (sid : String) (source : String) :
    Store × Bool × List Event :=
  if chunks.isEmpty then
    (store, false, [])
  else if env.clientOk = false then
    (store, false, [Event.connectQdrant])
  else
    let name := QdrantStorage.generateCollectionName inputType source sid
    if env.collectionExists name then
      if env.upsertOk name = false then
        (store, false,
          [Event.connectQdrant, Event.getCollection name, Event.upsertPoints name chunks.length])
      else
        (addNamespace store sid name, true,
          [Event.connectQdrant, Event.getCollection name, Event.upsertPoints name chunks.length])
    else if env.createOk name then
      if env.upsertOk name = false then
        (store, false,
          [Event.connectQdrant, Event.getCollection name, Event.createCollection name,
            Event.upsertPoints name chunks.length])
      else
        (addNamespace store sid name, true,
          [Event.connectQdrant, Event.getCollection name, Event.createCollection name,
            Event.upsertPoints name chunks.length])
    else
      (store, false,
        [Event.connectQdrant, Event.getCollection name, Event.createCollection name])

/-! ### Retrieval query engine (utils/rag_query_engine.py `query_content`). -/

/-- A Qdrant search hit: a score and an optional payload; the payload, when
present, optionally holds the `"text"` and `"source"` keys. -/
structure ScoredPoint where
  score : Int
  payload : Option (Option String × Option String)
deriving DecidableEq, Repr

/-- The external services `query_content` uses: the Qdrant client, the query
embedding call (which can raise), per-collection existence and search, and
the completion call on the built prompt. -/
structure QueryEnv where
  clientOk : Bool
  embedOk : Bool
  collectionExists : String → Bool
  searchResult : String → Except Unit (List ScoredPoint)
  ragCompletion : String → Except Unit String

def connFailMsg : String := "Internal error: Vector DB connection failed."

def noDocsMsg : String :=
  "I don\x27t have any documents to search for this session. Please upload a PDF or provide a website first."

def noContextMsg : String :=
  "No relevant context was found in your documents to answer this question."

def internalErrMsg : String := "An internal error occurred during content retrieval."

/-- The search loop of `query_content` (lines 54-69): skip a collection whose
`get_collection` probe raises; an exception from `search` itself propagates
to the enclosing `try`. -/
def collectSearch (env : QueryEnv) : List String → List Event × Except Unit (List ScoredPoint)
  | [] => ([], Except.ok [])
  | c :: rest =>
    if env.collectionExists c then
      match env.searchResult c with
      | Except.error e => ([Event.getCollection c, Event.searchCollection c], Except.error e)
      | Except.ok pts =>
        let (tr, res) := collectSearch env rest
        (Event.getCollection c :: Event.searchCollection c :: tr,
          match res with
          | Except.error e => Except.error e
          | Except.ok ps => Except.ok (pts ++ ps))
    else
      let (tr, res) := collectSearch env rest
      (Event.getCollection c :: tr, res)

/-- Stable insertion keeping scores in descending order (Python
`list.sort(key=score, reverse=True)` is a stable descending sort). -/
def insertByScore (p : ScoredPoint) : List ScoredPoint → List ScoredPoint
  | [] => [p]
  | q :: qs => if q.score < p.score then p :: q :: qs else q :: insertByScore p qs

def sortDesc (l : List ScoredPoint) : List ScoredPoint :=
  l.foldl (fun acc p => insertByScore p acc) []

/-- Lines 75-82: keep the hits whose payload has a `"text"` key, collecting
the context chunks and the resource dictionaries in rank order. -/
def buildChunksResources : List ScoredPoint → List String × List Resource
  | [] => ([], [])
  | p :: ps =>
    let (cs, rs) := buildChunksResources ps
    match p.payload with
    | some (some t, src) =>
      (t :: cs, { source := src.getD "unknown", textSnippet := t } :: rs)
    | _ => (cs, rs)

/-- The prompt built at line 88. -/
def ragPrompt (chunks : List String) (query : String) : String :=
  "Based on the following context, answer the question:\n\nContext:\n" ++
    String.intercalate "\n" chunks ++ "\n\nQuestion: " ++ query ++ "\nAnswer:"

/-- `query_content` from utils/rag_query_engine.py: answer a question from the
indexed content.  Every exception inside the body is caught by the outer
`except` and turned into the fixed internal-error answer; the function never
raises.  Returns the call trace, the answer text and the resource list. -/
def queryContent (env : QueryEnv) (store : Store) (sid : String) (query : String) :
    List Event × String × List Resource :=
  if env.clientOk = false then ([Event.connectQdrant], connFailMsg, [])
  else if env.embedOk = false then
    ([Event.connectQdrant, Event.embedQuery], internalErrMsg, [])
  else
    let active := match getSession store sid with
      | some s => s.activeNamespaces
      | none => []
    if active.isEmpty then ([Event.connectQdrant, Event.embedQuery], noDocsMsg, [])
    else
      let cs := collectSearch env active
      let base := Event.connectQdrant :: Event.embedQuery :: cs.1
      match cs.2 with
      | Except.error _ => (base, internalErrMsg, [])
      | Except.ok pts =>
        let cr := buildChunksResources (sortDesc pts)
        if cr.1.isEmpty then (base, noContextMsg, [])
        else
          match env.ragCompletion (ragPrompt cr.1 query) with
          | Except.error _ => (base ++ [Event.ragCompletionCall], internalErrMsg, [])
          | Except.ok ans => (base ++ [Event.ragCompletionCall], ans, cr.2)

/-! ### Chat node (nodes/chat_query_node.py) and the chat endpoint
(app/api/endpoints/chat.py). -/

/-- Action labels a node's `post` can return. -/
inductive Action
  | default
  | error
  | invalidModel
  | exit
deriving DecidableEq, Repr

/-- One `call_llm` invocation: its answer, or the exception class it raises
(`Invalid model`-style messages versus anything else). -/
inductive LlmOutcome
  | ok (text : String)
  | invalidModelErr
  | otherErr
deriving DecidableEq, Repr

/-- The external services a chat turn uses. `webResult` is the text
`web_search` returns; that function catches its own exceptions and returns
the empty string, so it is total. -/
structure ChatEnv where
  qenv : QueryEnv
  llm : List ChatEntry → Option String → LlmOutcome
  webResult : String

/-- Line 133 of nodes/chat_query_node.py: the vector-path answer is
insufficient when it is falsy or contains one of the two fixed phrases,
case-insensitively. -/
def insufficientAnswer (a : String) : Bool :=
  a = "" || containsSeq (pyLower a.data) "cannot answer".data ||
    containsSeq (pyLower a.data) "no relevant context".data

/-- The user chat-history entry `prep` appends (lines 52-56). -/
def userEntry (q ts : String) : ChatEntry :=
  { role := "user", content := q, timestamp := ts, resources := none }

/-- The assistant chat-history entry `post` appends (lines 181-186). -/
def assistantEntry (a : String) (res : List Resource) (ts : String) : ChatEntry :=
  { role := "assistant", content := a, timestamp := ts, resources := some res }

/-- `ChatQueryNode.prep`: load the session, append the user message to its
chat history and persist it, and compute the contextless flag.  With no
query the node prepares an exit (tuple `(None, None, "exit", True)`, the
`None` history modelled as `[]`); with no session it proceeds contextless
without writing. -/
def prepNode (store : Store) (sid : String) (q : String) (ts : String) :
    Store × (Option String × List ChatEntry × String × Bool) :=
  if q = "" then (store, (none, [], "exit", true))
  else
    match getSession store sid with
    | none => (store, (some q, [], sid, true))
    | some s =>
      let hist := s.chatHistory ++ [userEntry q ts]
      let store' := (updateSession store sid { noUpdates with chatHistory := some hist }).1
      (store', (some q, hist, sid, !s.contextIsReady))

/-- The message of the contextless catch at line 114. -/
def invalidModelMsg (m : Option String) : String :=
  "Invalid model specified: " ++ m.getD "None" ++
    ". Please check the model name. Available models can be found at https://openrouter.ai/models"

/-- The shorter message the validation preamble returns (lines 89-93). -/
def invalidModelShortMsg (m : Option String) : String :=
  "Invalid model specified: " ++ m.getD "None"

/-- The message built at line 118 (the Python text interpolates the
exception; the claims do not depend on its tail). -/
def llmErrorMsg : String := "Error calling LLM: ..."

def webFallbackErrMsg : String :=
  "I\x27m sorry, I encountered an error and couldn\x27t find an answer."

/-- The body of `ChatQueryNode.exec` after the model-validation preamble
(lines 99-159): contextless chat calls the completion service on the
transcript; otherwise run `query_content`, and on an insufficient answer
escalate to web search, then to a direct completion call. -/
def execBody (env : ChatEnv) (store : Store) (q : String) (hist : List ChatEntry)
    (sid : String) (contextless : Bool) (model : Option String) :
    List Event × String × List Resource × Action :=
  if contextless then
    match env.llm hist model with
    | LlmOutcome.ok a => ([Event.llmCall], a, [], Action.default)
    | LlmOutcome.invalidModelErr =>
      ([Event.llmCall], invalidModelMsg model, [], Action.invalidModel)
    | LlmOutcome.otherErr => ([Event.llmCall], llmErrorMsg, [], Action.error)
  else
    let qc := queryContent env.qenv store sid q
    if insufficientAnswer qc.2.1 then
      -- Python tests `if web_results:` (truthy) first; the branches are
      -- stated here with the empty test first, same semantics.
      if env.webResult = "" then
        match env.llm hist model with
        | LlmOutcome.ok a2 =>
          (qc.1 ++ [Event.webSearchCall, Event.llmCall], a2, qc.2.2, Action.default)
        | _ =>
          (qc.1 ++ [Event.webSearchCall, Event.llmCall], webFallbackErrMsg, qc.2.2, Action.error)
      else
        (qc.1 ++ [Event.webSearchCall], "(Web Search Result) " ++ env.webResult,
          qc.2.2 ++ [{ source := "web_search", textSnippet := env.webResult }], Action.default)
    else (qc.1, qc.2.1, qc.2.2, Action.default)

/-- The result of `exec`: either the `(answer, resources, action)` triple, or
an exception re-raised out of the model-validation preamble (line 94). -/
inductive ExecOutcome
  | raised
  | done (answer : String) (resources : List Resource) (act : Action)
deriving DecidableEq, Repr

/-- `ChatQueryNode.exec`.  The `None`/`"exit"` query exits (its Python answer
is `None`, modelled as `""`; `post` returns before reading it).  When the
shared dict carries a truthy `"model"`, a dummy completion call validates it
first. -/
def execNode (env : ChatEnv) (store : Store)
    (prep : Option String × List ChatEntry × String × Bool) (model : Option String) :
    List Event × ExecOutcome :=
  let (uq, hist, sid, contextless) := prep
  match uq with
  | none => ([], ExecOutcome.done "" [] Action.exit)
  | some q =>
    if pyLower q.data = "exit".data then ([], ExecOutcome.done "" [] Action.exit)
    else if truthy model then
      match env.llm [{ role := "system", content := "test", timestamp := "", resources := none }] model with
      | LlmOutcome.invalidModelErr =>
        ([Event.llmCall], ExecOutcome.done (invalidModelShortMsg model) [] Action.invalidModel)
      | LlmOutcome.otherErr => ([Event.llmCall], ExecOutcome.raised)
      | LlmOutcome.ok _ =>
        let b := execBody env store q hist sid contextless model
        (Event.llmCall :: b.1, ExecOutcome.done b.2.1 b.2.2.1 b.2.2.2)
    else
      let b := execBody env store q hist sid contextless model
      (b.1, ExecOutcome.done b.2.1 b.2.2.1 b.2.2.2)

/-- `ChatQueryNode.post`: on exit do nothing; on error persist an error
status; otherwise append the assistant entry when the answer is truthy and
persist the history with status forced back to `ready`.  (The
`current_question`/`current_answer`/`current_answer_resources` keys are not
`SessionData` fields and do not reach the persisted record.  The endpoint
never reaches `post`: the `exec` call at chat.py line 31 raises first; the
embedding is kept as the faithful translation of the node's code.) -/
def postNode (store : Store) (prep : Option String × List ChatEntry × String × Bool)
    (answer : String) (resources : List Resource) (act : Action) (ts : String) :
    Store × Action :=
  let (_, hist, sid, _) := prep
  match act with
  | Action.exit => (store, act)
  | Action.error =>
    ((updateSession store sid
        { noUpdates with status := some Status.error, message := some answer }).1, act)
  | _ =>
    let hist' := if answer = "" then hist
      else hist ++ [assistantEntry answer resources ts]
    ((updateSession store sid
        { noUpdates with chatHistory := some hist', status := some Status.ready }).1, act)

/-- What the chat endpoint returns over the wire. -/
inductive ChatHttpResult
  | notFound
  | badRequest
  | serverError (detail : String)
  | ok (answer : String) (resources : List Resource)
deriving DecidableEq, Repr

structure EndpointResult where
  store : Store
  events : List Event
  result : ChatHttpResult

/-- The error message the handler at chat.py lines 44-46 stores:
`f"An unexpected server error occurred: {e}"` with the `TypeError` the
miscalled `exec` raises. -/
def chatTypeErrorMessage : String :=
  "An unexpected server error occurred: ChatQueryNode.exec() missing 1 required positional argument: \x27shared\x27"

/-- The generic detail of the 500 the handler raises (chat.py lines 47-50). -/
def chatGenericDetail : String :=
  "An unexpected error occurred while processing your request."

/-- `chat_with_content` from app/api/endpoints/chat.py: 404 when the session
is missing, 400 when its context is not ready — both before any node phase
runs.  Otherwise `prep` runs (line 29) and persists the user entry, and then
line 31 calls `chat_node.exec(prep_res)`: `ChatQueryNode.exec` is declared
`exec(self, prep_res, shared)`, so the call raises `TypeError` before any of
the body of `exec` runs and no external service is invoked.  The `except` at
lines 44-50 writes an error status with the interpolated exception text and
answers the generic 500 detail; `post` and the action dispatch at lines
33-42 are unreachable.  (The environment parameter is kept for the
interface; the miscarried turn consults no external service.) -/
def chatEndpoint (_env : ChatEnv) (store : Store) (sid : String) (q : String)
    (ts1 _ts2 : String) : EndpointResult :=
  match getSession store sid with
  | none => { store := store, events := [], result := ChatHttpResult.notFound }
  | some s =>
    if s.contextIsReady = false then
      { store := store, events := [], result := ChatHttpResult.badRequest }
    else
      let p := prepNode store sid q ts1
      let u := { noUpdates with
                 status := some Status.error
                 message := some chatTypeErrorMessage }
      { store := (updateSession p.1 sid u).1, events := [],
        result := ChatHttpResult.serverError chatGenericDetail }

/-! ### FAQ endpoint (app/api/endpoints/faq.py). -/

inductive FaqHttpResult
  | notFound
  | badRequest
  | accepted
deriving DecidableEq, Repr

structure FaqEndpointResult where
  store : Store
  tasks : List String
  result : FaqHttpResult

/-- `generate_faq` from app/api/endpoints/faq.py: reject a missing session
(404) or one whose context is not ready (400) before any state change or
task dispatch; otherwise mark the session `faq_processing` and enqueue the
background task. -/
def generateFaqEndpoint (store : Store) (sid : String) : FaqEndpointResult :=
  match getSession store sid with
  | none => { store := store, tasks := [], result := FaqHttpResult.notFound }
  | some s =>
    if s.contextIsReady = false then
      { store := store, tasks := [], result := FaqHttpResult.badRequest }
    else
      let u := { noUpdates with
                 status := some Status.faqProcessing
                 message := some "FAQ generation in progress." }
      { store := (updateSession store sid u).1,
        tasks := ["run_faq_generation_flow:" ++ sid],
        result := FaqHttpResult.accepted }

/-! ### Ingestion flow (nodes/input_node.py, nodes/content_processing_node.py,
app/flows.py `create_setup_flow`, app/workers/tasks.py `run_ingestion_flow`). -/

/-- The shared context the ingestion task receives: a session dump made by the
ingest endpoint, with `input_value` rewritten to a temp path and
`original_filename` added for PDFs. -/
structure IngestShared where
  userSessionId : String
  inputType : Option String
  inputValue : Option String
  originalFilename : Option String

/-- External results one ingestion run observes: the crawled/extracted text
(`""` models a falsy result), the embedded chunk batch, the Qdrant service,
and the uuid `InputNode.prep` would use for its fallback `create_session`. -/
structure IngestEnv where
  qdrant : QdrantEnv
  content : String
  chunks : List EmbChunk
  freshSid : String

/-- `InputNode` (`prep`/`exec`/`post`): validates the input, persists the
early status updates, and yields whether the flow proceeds (`"default"`)
or halts (`"error"`, which has no outgoing edge from this node).  The
`chat_history` initialization branch is skipped because the shared dict is a
session dump and always carries the list. -/
def inputNodeRun (store : Store) (sh : IngestShared) (freshSid : String) : Store × Bool :=
  if sh.inputType = some "none" then
    let u := { noUpdates with
               status := some Status.ready
               contextIsReady := some false
               message := some "No content provided, chat without context." }
    ((updateSession store sh.userSessionId u).1, true)
  else if !truthy sh.inputType || !truthy sh.inputValue then
    let u := { noUpdates with
               status := some Status.error
               message := some "Input type or value missing for content processing." }
    ((updateSession store sh.userSessionId u).1, false)
  else if sh.inputType = some "website" ∨ sh.inputType = some "pdf" then
    match getSession store sh.userSessionId with
    | some _ => (store, true)
    | none =>
      ((createSession store freshSid (sh.inputType.getD "") (sh.inputValue.getD "")).1, true)
  else
    let u := { noUpdates with
               status := some Status.error
               message := some "Invalid input type." }
    ((updateSession store sh.userSessionId u).1, false)

/-- `ContentProcessingNode` (`prep`/`exec`/`post`): acquire the content, embed
it, store the embeddings, and persist the resulting session state.  When
`prep` fails, its error `prep_res` carries no session id, so `post`'s second
error write targets the key `"session:None"`, which never holds a record —
only `prep`'s own error write is visible. -/
def contentNodeRun (env : IngestEnv) (store : Store) (sh : IngestShared) : Store :=
  if !truthy sh.inputType || !truthy sh.inputValue then
    let u := { noUpdates with
               status := some Status.error
               message := some "Input type or value missing for content processing." }
    (updateSession store sh.userSessionId u).1
  else
    let contentRes : Except String String :=
      if sh.inputType = some "website" then
        (if env.content = "" then Except.error "Failed to crawl website."
         else Except.ok env.content)
      else if sh.inputType = some "pdf" then
        (if env.content = "" then Except.error "Failed to extract text from PDF."
         else Except.ok env.content)
      else Except.ok ""
    match contentRes with
    | Except.error msg =>
      let u := { noUpdates with status := some Status.error, message := some msg }
      (updateSession store sh.userSessionId u).1
    | Except.ok content =>
      if content = "" then
        let u := { noUpdates with
                   status := some Status.ready
                   contextIsReady := some false
                   message := some "No content to process." }
        (updateSession store sh.userSessionId u).1
      else if env.chunks.isEmpty then
        let u := { noUpdates with
                   status := some Status.error
                   message := some "Failed to create embeddings." }
        (updateSession store sh.userSessionId u).1
      else
        let src := sh.originalFilename.getD (sh.inputValue.getD "")
        let r := storeEmbeddings env.qdrant store env.chunks (sh.inputType.getD "")
          sh.userSessionId src
        if r.2.1 = false then
          let u := { noUpdates with
                     status := some Status.error
                     message := some "Failed to store embeddings in vector DB." }
          (updateSession r.1 sh.userSessionId u).1
        else
          let u := { noUpdates with
                     status := some Status.ready
                     contextIsReady := some true
                     message := some "Content processed and ready for chat."
                     processedContent := some (some (String.intercalate " "
                       (env.chunks.map (fun c => c.text)))) }
          (updateSession r.1 sh.userSessionId u).1

/-- One run of the setup flow (`InputNode >> ContentProcessingNode >> EndNode`):
an `"error"` action from `InputNode` has no registered edge, so the flow
stops there. -/
def ingestionFlow (env : IngestEnv) (store : Store) (sh : IngestShared) : Store :=
  let r := inputNodeRun store sh env.freshSid
  if r.2 then contentNodeRun env r.1 sh else r.1

/-! ### FAQ flow (nodes/faq_generation_node.py, app/workers/tasks.py
`run_faq_generation_flow`). -/

/-- External results one FAQ run observes: the generated pairs (`[]` models a
falsy result), the embedding of the combined FAQ document (`[]` models
failure), and the Qdrant service. -/
structure FaqEnv where
  qdrant : QdrantEnv
  faqs : List Faq
  faqEmbedding : List Int

/-- The synthetic FAQ document of `FAQGenerationNode.post` (lines 66-87). -/
def faqCombinedText (faqs : List Faq) : String :=
  String.intercalate "\n\n"
    (faqs.map (fun f => "Question: " ++ f.question ++ "\nAnswer: " ++ f.answer))

/-- `FAQGenerationNode` (`prep`/`exec`/`post`) on the shared dict built from a
session dump.  On the missing-content `prep` error, `exec`'s error result
carries no session id, so `post`'s error write targets `"session:None"` and
changes nothing beyond `prep`'s own write.  A failure to embed or store the
combined FAQ document is logged only; the generated FAQs are still saved. -/
def faqNodeRun (env : FaqEnv) (store : Store) (sh : SessionData) : Store :=
  let sid := sh.userSessionId
  let u0 := { noUpdates with
              status := some Status.faqProcessing
              message := some "FAQ generation in progress." }
  let store1 := (updateSession store sid u0).1
  if !truthy sh.processedContent then
    let u := { noUpdates with
               status := some Status.error
               message := some "No processed content available for FAQ generation." }
    (updateSession store1 sid u).1
  else if env.faqs.isEmpty then
    let u := { noUpdates with
               status := some Status.error
               message := some "Failed to generate FAQs." }
    (updateSession store1 sid u).1
  else
    let chunk : EmbChunk :=
      { source := sh.inputValue.getD "", text := faqCombinedText env.faqs,
        embedding := env.faqEmbedding }
    let store2 :=
      if env.faqEmbedding.isEmpty then store1
      else (storeEmbeddings env.qdrant store1 [chunk] (sh.inputType.getD "") sid
        (sh.inputValue.getD "")).1
    let u := { noUpdates with
               generatedFaqs := some env.faqs
               status := some Status.ready
               message := some "FAQs generated and context updated." }
    (updateSession store2 sid u).1

/-- `run_faq_generation_flow` from app/workers/tasks.py: guard on a missing or
not-ready session, run the flow, then force `ready`; when that final write
finds no record it raises and the handler writes an error (also a no-op on a
missing record, kept for faithfulness). -/
def faqTask (env : FaqEnv) (store : Store) (sid : String) : Store :=
  let notReadyU := { noUpdates with
                     status := some Status.error
                     message := some "Content not ready for FAQ generation." }
  match getSession store sid with
  | none => (updateSession store sid notReadyU).1
  | some s =>
    if s.contextIsReady = false then (updateSession store sid notReadyU).1
    else
      let store1 := faqNodeRun env store s
      let u := { noUpdates with
                 status := some Status.ready
                 message := some "FAQs generated and context updated." }
      let r := updateSession store1 sid u
      match r.2 with
      | some _ => r.1
      | none =>
        let uerr := { noUpdates with
                      status := some Status.error
                      message := some "Redis update failed" }
        (updateSession r.1 sid uerr).1

/-! ### The session-state transition system. -/

/-- The system's own operations: session creation (ingest endpoint), an
ingestion flow run, the FAQ request endpoint, an FAQ task run, and a chat
request. -/
inductive SysStep : Store → Store → Prop where
  | create (store : Store) (sid it iv : String) :
      store sid = none → SysStep store (createSession store sid it iv).1
  | ingest (env : IngestEnv) (store : Store) (sh : IngestShared) :
      SysStep store (ingestionFlow env store sh)
  | faqRequest (store : Store) (sid : String) :
      SysStep store (generateFaqEndpoint store sid).store
  | faqRun (env : FaqEnv) (store : Store) (sid : String) :
      SysStep store (faqTask env store sid)
  | chat (env : ChatEnv) (store : Store) (sid q ts1 ts2 : String) :
      SysStep store (chatEndpoint env store sid q ts1 ts2).store

/-- All operations named by the claim, including the `update_session`
passthrough (`PUT /session/{id}`), which applies an arbitrary updates
dictionary. -/
inductive Step : Store → Store → Prop where
  | sys {store store' : Store} : SysStep store store' → Step store store'
  | manualUpdate (store : Store) (sid : String) (u : SessionUpdates) :
      Step store (updateSession store sid u).1

/-- The claimed invariant: a ready context has a non-empty namespace list. -/
def Inv (store : Store) : Prop :=
  ∀ sid s, store sid = some s → s.contextIsReady = true → s.activeNamespaces ≠ []

/-! ### Concrete fixtures for witnesses and counterexamples. -/

/-- A simple stored session used as a base for concrete stores. -/
def baseSession (sid : String) : SessionData :=
  { userSessionId := sid, inputType := some "website",
    inputValue := some "https://x.example", processedContent := some "content",
    pdfFileContentB64 := none, generatedFaqs := [], chatHistory := [],
    contextIsReady := false, activeNamespaces := [], status := Status.ready,
    message := "m" }

/-- A query environment where every external call succeeds. -/
def baseQueryEnv : QueryEnv :=
  { clientOk := true, embedOk := true, collectionExists := fun _ => true,
    searchResult := fun _ => Except.ok [], ragCompletion := fun _ => Except.ok "RAGANS",
  }

/-- A chat environment where the completion service answers `"LLMANS"` and
web search returns nothing. -/
def baseChatEnv : ChatEnv :=
  { qenv := baseQueryEnv, llm := fun _ _ => LlmOutcome.ok "LLMANS", webResult := "" }

def storeC1 : Store := insertStore emptyStore "s0" (baseSession "s0")

def c2Updates : SessionUpdates := { noUpdates with contextIsReady := some true }

def c2Store1 : Store := (createSession emptyStore "abc" "website" "https://x.example").1

def c2Store2 : Store := (updateSession c2Store1 "abc" c2Updates).1

/-- The record the manual-update counterexample produces: context flagged
ready with no namespaces. -/
def c2BadRecord : SessionData :=
  { userSessionId := "abc", inputType := some "website",
    inputValue := some "https://x.example", processedContent := none,
    pdfFileContentB64 := none, generatedFaqs := [], chatHistory := [],
    contextIsReady := true, activeNamespaces := [], status := Status.processing,
    message := "Session initialized." }

/-- An environment in which the Qdrant `search` call raises. -/
def envC4 : ChatEnv :=
  { baseChatEnv with
    qenv := { baseQueryEnv with searchResult := fun _ => Except.error () }
    webResult := "WEB" }

def storeC4 : Store :=
  insertStore emptyStore "s4"
    { baseSession "s4" with contextIsReady := true, activeNamespaces := ["c0"] }

/-- An environment where vector search finds nothing and web search answers. -/
def envC5 : ChatEnv := { baseChatEnv with webResult := "WEBC5" }

def storeC5 : Store :=
  insertStore emptyStore "s5"
    { baseSession "s5" with contextIsReady := true, activeNamespaces := ["c5"] }

/-- A ready session: the failing input of the chat-turn arity bug. -/
def storeC6 : Store :=
  insertStore emptyStore "s6"
    { baseSession "s6" with contextIsReady := true, activeNamespaces := ["c6"] }

def storeC7 : Store := insertStore emptyStore "s7" (baseSession "s7")

def updC9 : SessionUpdates := { noUpdates with status := some Status.ready }

def storeC9 : Store := insertStore emptyStore "s9" (baseSession "s9")

/-! ### Invariant-preservation lemmas. -/

theorem insertStore_self (store : Store) (sid : String) (s : SessionData) :
    insertStore store sid s sid = some s := by
  simp [insertStore]

theorem insertStore_other (store : Store) (sid k : String) (s : SessionData)
    (h : k ≠ sid) : insertStore store sid s k = store k := by
  simp [insertStore, h]

theorem updateSession_fst_none (store : Store) (sid : String) (u : SessionUpdates)
    (hs : store sid = none) : (updateSession store sid u).1 = store := by
  unfold updateSession
  rw [hs]

theorem updateSession_fst_some (store : Store) (sid : String) (u : SessionUpdates)
    (s : SessionData) (hs : store sid = some s) :
    (updateSession store sid u).1 = insertStore store sid (applyUpdates s u) := by
  unfold updateSession
  rw [hs]

theorem inv_updateSession (store : Store) (sid : String) (u : SessionUpdates)
    (hInv : Inv store)
    (h : ∀ s, store sid = some s →
      (applyUpdates s u).contextIsReady = true → (applyUpdates s u).activeNamespaces ≠ []) :
    Inv (updateSession store sid u).1 := by
  intro k t hk hflag
  cases hs : store sid with
  | none =>
    rw [updateSession_fst_none store sid u hs] at hk
    exact hInv k t hk hflag
  | some s =>
    rw [updateSession_fst_some store sid u s hs] at hk
    by_cases hks : k = sid
    · subst hks
      rw [insertStore_self] at hk
      injection hk with hk
      subst hk
      exact h s hs hflag
    · rw [insertStore_other store sid k _ hks] at hk
      exact hInv k t hk hflag

theorem inv_update_benign (store : Store) (sid : String) (u : SessionUpdates)
    (hInv : Inv store) (hflag : u.contextIsReady = none)
    (hns : u.activeNamespaces = none) : Inv (updateSession store sid u).1 := by
  refine inv_updateSession store sid u hInv ?_
  intro s hs h1
  have h2 : s.contextIsReady = true := by simpa [applyUpdates, hflag] using h1
  simpa [applyUpdates, hns] using hInv sid s hs h2

theorem inv_update_flagFalse (store : Store) (sid : String) (u : SessionUpdates)
    (hInv : Inv store) (hflag : u.contextIsReady = some false) :
    Inv (updateSession store sid u).1 := by
  refine inv_updateSession store sid u hInv ?_
  intro s hs h1
  simp [applyUpdates, hflag] at h1

theorem inv_update_ns (store : Store) (sid : String) (u : SessionUpdates)
    (hInv : Inv store) (l : List String) (hns : u.activeNamespaces = some l)
    (hl : l ≠ []) : Inv (updateSession store sid u).1 := by
  refine inv_updateSession store sid u hInv ?_
  intro s hs _
  simpa [applyUpdates, hns] using hl

theorem inv_update_flagTrue (store : Store) (sid : String) (u : SessionUpdates)
    (hInv : Inv store) (_hflag : u.contextIsReady = some true)
    (hns : u.activeNamespaces = none)
    (hpre : ∀ s, store sid = some s → s.activeNamespaces ≠ []) :
    Inv (updateSession store sid u).1 := by
  refine inv_updateSession store sid u hInv ?_
  intro s hs _
  simpa [applyUpdates, hns] using hpre s hs

theorem inv_insertStore (store : Store) (sid : String) (s : SessionData)
    (hInv : Inv store)
    (hs : s.contextIsReady = true → s.activeNamespaces ≠ []) :
    Inv (insertStore store sid s) := by
  intro k t hk hflag
  by_cases hks : k = sid
  · subst hks
    rw [insertStore_self] at hk
    injection hk with hk
    subst hk
    exact hs hflag
  · rw [insertStore_other store sid k _ hks] at hk
    exact hInv k t hk hflag

theorem inv_createSession (store : Store) (sid it iv : String) (hInv : Inv store) :
    Inv (createSession store sid it iv).1 := by
  refine inv_insertStore store sid _ hInv ?_
  intro h
  simp at h

theorem mergedNamespaces_ne_nil (l : List String) (name : String) :
    (if l.contains name then l else l ++ [name]) ≠ [] := by
  split
  · rename_i hc
    intro h
    subst h
    simp at hc
  · simp

theorem inv_addNamespace (store : Store) (sid name : String) (hInv : Inv store) :
    Inv (addNamespace store sid name) := by
  unfold addNamespace
  cases hs : getSession store sid with
  | none => exact hInv
  | some s =>
    exact inv_update_ns store sid _ hInv _ rfl (mergedNamespaces_ne_nil s.activeNamespaces name)

theorem inv_storeEmbeddings (env : QdrantEnv) (store : Store) (chunks : List EmbChunk)
    (it sid src : String) (hInv : Inv store) :
    Inv (storeEmbeddings env store chunks it sid src).1 := by
  simp only [storeEmbeddings]
  split
  · exact hInv
  · split
    · exact hInv
    · split
      · split
        · exact hInv
        · exact inv_addNamespace store sid _ hInv
      · split
        · split
          · exact hInv
          · exact inv_addNamespace store sid _ hInv
        · exact hInv

theorem addNamespace_lookup (store : Store) (sid name : String) :
    addNamespace store sid name sid = none ∨
      ∃ s, addNamespace store sid name sid = some s ∧ s.activeNamespaces ≠ [] := by
  unfold addNamespace
  cases hs : getSession store sid with
  | none => exact Or.inl hs
  | some s =>
    refine Or.inr ?_
    dsimp only
    rw [updateSession_fst_some store sid _ s hs, insertStore_self]
    exact ⟨_, rfl, by simpa [applyUpdates] using mergedNamespaces_ne_nil s.activeNamespaces name⟩

theorem storeEmbeddings_true_ns (env : QdrantEnv) (store : Store) (chunks : List EmbChunk)
    (it sid src : String)
    (hTrue : (storeEmbeddings env store chunks it sid src).2.1 = true) :
    ∀ s, (storeEmbeddings env store chunks it sid src).1 sid = some s →
      s.activeNamespaces ≠ [] := by
  intro s hs
  by_cases h1 : chunks.isEmpty
  · simp [storeEmbeddings, h1] at hTrue
  · by_cases h2 : env.clientOk = false
    · simp [storeEmbeddings, h1, h2] at hTrue
    · by_cases h3 : env.collectionExists (QdrantStorage.generateCollectionName it src sid)
      · by_cases h4 : env.upsertOk (QdrantStorage.generateCollectionName it src sid) = false
        · simp [storeEmbeddings, h1, h2, h3, h4] at hTrue
        · simp [storeEmbeddings, h1, h2, h3, h4] at hs
          rcases addNamespace_lookup store sid
              (QdrantStorage.generateCollectionName it src sid) with h | ⟨t, ht, hnil⟩
          · rw [h] at hs
            cases hs
          · rw [ht] at hs
            injection hs with hs
            subst hs
            exact hnil
      · by_cases h5 : env.createOk (QdrantStorage.generateCollectionName it src sid)
        · by_cases h4 : env.upsertOk (QdrantStorage.generateCollectionName it src sid) = false
          · simp [storeEmbeddings, h1, h2, h3, h5, h4] at hTrue
          · simp [storeEmbeddings, h1, h2, h3, h5, h4] at hs
            rcases addNamespace_lookup store sid
                (QdrantStorage.generateCollectionName it src sid) with h | ⟨t, ht, hnil⟩
            · rw [h] at hs
              cases hs
            · rw [ht] at hs
              injection hs with hs
              subst hs
              exact hnil
        · simp [storeEmbeddings, h1, h2, h3, h5] at hTrue

theorem inv_inputNodeRun (store : Store) (sh : IngestShared) (f : String)
    (hInv : Inv store) : Inv (inputNodeRun store sh f).1 := by
  simp only [inputNodeRun]
  split
  · exact inv_update_flagFalse _ _ _ hInv rfl
  · split
    · exact inv_update_benign _ _ _ hInv rfl rfl
    · split
      · split
        · exact hInv
        · exact inv_createSession _ _ _ _ hInv
      · exact inv_update_benign _ _ _ hInv rfl rfl

theorem inv_contentNodeRun (env : IngestEnv) (store : Store) (sh : IngestShared)
    (hInv : Inv store) : Inv (contentNodeRun env store sh) := by
  simp only [contentNodeRun]
  split
  · exact inv_update_benign _ _ _ hInv rfl rfl
  · split
    · exact inv_update_benign _ _ _ hInv rfl rfl
    · split
      · exact inv_update_flagFalse _ _ _ hInv rfl
      · split
        · exact inv_update_benign _ _ _ hInv rfl rfl
        · split
          · exact inv_update_benign _ _ _ (inv_storeEmbeddings _ _ _ _ _ _ hInv) rfl rfl
          · rename_i hfalse
            refine inv_update_flagTrue _ _ _ (inv_storeEmbeddings _ _ _ _ _ _ hInv) rfl rfl ?_
            intro s hs
            exact storeEmbeddings_true_ns _ _ _ _ _ _ (by simpa using hfalse) s hs

theorem inv_ingestionFlow (env : IngestEnv) (store : Store) (sh : IngestShared)
    (hInv : Inv store) : Inv (ingestionFlow env store sh) := by
  simp only [ingestionFlow]
  split
  · exact inv_contentNodeRun _ _ _ (inv_inputNodeRun _ _ _ hInv)
  · exact inv_inputNodeRun _ _ _ hInv

theorem inv_prepNode (store : Store) (sid q ts : String) (hInv : Inv store) :
    Inv (prepNode store sid q ts).1 := by
  simp only [prepNode]
  split
  · exact hInv
  · split
    · exact hInv
    · exact inv_update_benign _ _ _ hInv rfl rfl

theorem inv_postNode (store : Store) (prep : Option String × List ChatEntry × String × Bool)
    (a : String) (res : List Resource) (act : Action) (ts : String) (hInv : Inv store) :
    Inv (postNode store prep a res act ts).1 := by
  obtain ⟨uq, hist, sid, cl⟩ := prep
  cases act with
  | exit => exact hInv
  | error => exact inv_update_benign _ _ _ hInv rfl rfl
  | default => exact inv_update_benign _ _ _ hInv rfl rfl
  | invalidModel => exact inv_update_benign _ _ _ hInv rfl rfl

theorem inv_chatEndpoint (env : ChatEnv) (store : Store) (sid q ts1 ts2 : String)
    (hInv : Inv store) : Inv (chatEndpoint env store sid q ts1 ts2).store := by
  simp only [chatEndpoint]
  split
  · exact hInv
  · split
    · exact hInv
    · exact inv_update_benign _ _ _ (inv_prepNode _ _ _ _ hInv) rfl rfl

theorem inv_generateFaqEndpoint (store : Store) (sid : String) (hInv : Inv store) :
    Inv (generateFaqEndpoint store sid).store := by
  simp only [generateFaqEndpoint]
  split
  · exact hInv
  · split
    · exact hInv
    · exact inv_update_benign _ _ _ hInv rfl rfl

theorem inv_faqNodeRun (env : FaqEnv) (store : Store) (sh : SessionData)
    (hInv : Inv store) : Inv (faqNodeRun env store sh) := by
  simp only [faqNodeRun]
  split
  · exact inv_update_benign _ _ _ (inv_update_benign _ _ _ hInv rfl rfl) rfl rfl
  · split
    · exact inv_update_benign _ _ _ (inv_update_benign _ _ _ hInv rfl rfl) rfl rfl
    · split
      · exact inv_update_benign _ _ _ (inv_update_benign _ _ _ hInv rfl rfl) rfl rfl
      · exact inv_update_benign _ _ _
          (inv_storeEmbeddings _ _ _ _ _ _ (inv_update_benign _ _ _ hInv rfl rfl)) rfl rfl

theorem inv_faqTask (env : FaqEnv) (store : Store) (sid : String) (hInv : Inv store) :
    Inv (faqTask env store sid) := by
  simp only [faqTask]
  split
  · exact inv_update_benign _ _ _ hInv rfl rfl
  · split
    · exact inv_update_benign _ _ _ hInv rfl rfl
    · split
      · exact inv_update_benign _ _ _ (inv_faqNodeRun _ _ _ hInv) rfl rfl
      · exact inv_update_benign _ _ _
          (inv_update_benign _ _ _ (inv_faqNodeRun _ _ _ hInv) rfl rfl) rfl rfl

theorem inv_sysStep {a b : Store} (h : SysStep a b) (hInv : Inv a) : Inv b := by
  cases h with
  | create store sid it iv hnone => exact inv_createSession _ _ _ _ hInv
  | ingest env store sh => exact inv_ingestionFlow _ _ _ hInv
  | faqRequest store sid => exact inv_generateFaqEndpoint _ _ hInv
  | faqRun env store sid => exact inv_faqTask _ _ _ hInv
  | chat env store sid q ts1 ts2 => exact inv_chatEndpoint _ _ _ _ _ _ hInv

theorem updateSession_snd_some (store : Store) (sid : String) (u : SessionUpdates)
    (s : SessionData) (hs : store sid = some s) :
    (updateSession store sid u).2 = some (applyUpdates s u) := by
  unfold updateSession
  rw [hs]

/-! ### Claim theorems. -/

/-- C8: the collection-name resolver maps
`("website", "https://example.com/page", "abc12345-xxxx")` to
`"web-example-com-abc12345"` and `("pdf", "Report Final v2.pdf", "abc12345-xxxx")`
to `"pdf-report-final-v2-abc12345"`. -/
theorem c8_resolver_examples :
    QdrantStorage.generateCollectionName "website" "https://example.com/page" "abc12345-xxxx" =
      "web-example-com-abc12345" ∧
    QdrantStorage.generateCollectionName "pdf" "Report Final v2.pdf" "abc12345-xxxx" =
      "pdf-report-final-v2-abc12345" :=
  ⟨by decide, by decide⟩

/-- C3: the collection-name resolver is a pure deterministic function —
identical inputs always yield identical output — and the ingestion-time
resolver (utils/qdrant_storage.py) and the query-time resolver
(utils/rag_query_engine.py) are extensionally equal. -/
theorem c3_resolver_pure_and_agree :
    (∀ t1 s1 i1 t2 s2 i2 : String, t1 = t2 → s1 = s2 → i1 = i2 →
      QdrantStorage.generateCollectionName t1 s1 i1 =
        QdrantStorage.generateCollectionName t2 s2 i2) ∧
    (∀ t s i : String,
      QdrantStorage.generateCollectionName t s i = RagQueryEngine.generateCollectionName t s i) := by
  constructor
  · intro t1 s1 i1 t2 s2 i2 ht hs hi
    subst ht
    subst hs
    subst hi
    rfl
  · intro t s i
    rfl

/-- Witness for C3 at a concrete input. -/
theorem c3_resolver_pure_and_agree_witness :
    QdrantStorage.generateCollectionName "pdf" "a.pdf" "id-1" =
      QdrantStorage.generateCollectionName "pdf" "a.pdf" "id-1" ∧
    QdrantStorage.generateCollectionName "pdf" "a.pdf" "id-1" =
      RagQueryEngine.generateCollectionName "pdf" "a.pdf" "id-1" :=
  ⟨c3_resolver_pure_and_agree.1 "pdf" "a.pdf" "id-1" "pdf" "a.pdf" "id-1" rfl rfl rfl,
    c3_resolver_pure_and_agree.2 "pdf" "a.pdf" "id-1"⟩

/-- C7: a FAQ-generation request on an existing session whose context is not
ready is rejected with a 400, the store is unchanged, and no task is
enqueued. -/
theorem c7_faq_not_ready_rejected (store : Store) (sid : String) (s : SessionData)
    (hs : getSession store sid = some s) (h : s.contextIsReady = false) :
    generateFaqEndpoint store sid =
      { store := store, tasks := [], result := FaqHttpResult.badRequest } := by
  simp [generateFaqEndpoint, hs, h]

/-- Witness for C7 at a concrete store. -/
theorem c7_faq_not_ready_rejected_witness :
    generateFaqEndpoint storeC7 "s7" =
      { store := storeC7, tasks := [], result := FaqHttpResult.badRequest } :=
  c7_faq_not_ready_rejected storeC7 "s7" (baseSession "s7") rfl rfl

/-- C9: `update_session` on a missing id returns `None` and performs no
write; on an existing record it writes exactly the record with the named
fields replaced, leaving every field not named in the updates dictionary
(and every other session) unchanged. -/
theorem c9_update_session_frame (store : Store) (sid : String) (u : SessionUpdates) :
    (store sid = none → updateSession store sid u = (store, none)) ∧
    (∀ s, store sid = some s →
      (updateSession store sid u).1 sid = some (applyUpdates s u) ∧
      (updateSession store sid u).2 = some (applyUpdates s u) ∧
      (∀ k, k ≠ sid → (updateSession store sid u).1 k = store k) ∧
      (u.userSessionId = none → (applyUpdates s u).userSessionId = s.userSessionId) ∧
      (u.inputType = none → (applyUpdates s u).inputType = s.inputType) ∧
      (u.inputValue = none → (applyUpdates s u).inputValue = s.inputValue) ∧
      (u.processedContent = none → (applyUpdates s u).processedContent = s.processedContent) ∧
      (u.pdfFileContentB64 = none → (applyUpdates s u).pdfFileContentB64 = s.pdfFileContentB64) ∧
      (u.generatedFaqs = none → (applyUpdates s u).generatedFaqs = s.generatedFaqs) ∧
      (u.chatHistory = none → (applyUpdates s u).chatHistory = s.chatHistory) ∧
      (u.contextIsReady = none → (applyUpdates s u).contextIsReady = s.contextIsReady) ∧
      (u.activeNamespaces = none → (applyUpdates s u).activeNamespaces = s.activeNamespaces) ∧
      (u.status = none → (applyUpdates s u).status = s.status) ∧
      (u.message = none → (applyUpdates s u).message = s.message)) := by
  constructor
  · intro hs
    unfold updateSession
    rw [hs]
  · intro s hs
    rw [updateSession_fst_some store sid u s hs, updateSession_snd_some store sid u s hs]
    refine ⟨insertStore_self store sid _, rfl, fun k hk => insertStore_other store sid k _ hk,
      ?_, ?_, ?_, ?_, ?_, ?_, ?_, ?_, ?_, ?_, ?_⟩
    all_goals intro h
    all_goals simp [applyUpdates, h]

/-- Witness for C9 at a concrete store, record and updates dictionary. -/
theorem c9_update_session_frame_witness :
    updateSession storeC9 "nope" updC9 = (storeC9, none) ∧
    (updateSession storeC9 "s9" updC9).1 "zz" = storeC9 "zz" ∧
    (applyUpdates (baseSession "s9") updC9).message = (baseSession "s9").message := by
  have h2 := (c9_update_session_frame storeC9 "s9" updC9).2 (baseSession "s9") rfl
  obtain ⟨_, _, hframe, _, _, _, _, _, _, _, _, _, _, hmsg⟩ := h2
  exact ⟨(c9_update_session_frame storeC9 "nope" updC9).1 (by decide),
    hframe "zz" (by decide), hmsg rfl⟩

/-- C10: `store_embeddings_in_qdrant` on an empty chunk list returns `False`
immediately, makes no external call (no client connect, no collection
ensure/create, no upsert) and leaves the session store unchanged. -/
theorem c10_store_embeddings_empty_noop (env : QdrantEnv) (store : Store)
    (it sid src : String) :
    storeEmbeddings env store [] it sid src = (store, false, []) := rfl

/-- C1 counterexample: on a session with `context_is_ready=false`, the chat
endpoint answers 400 with no external call — it does not return the
completion answer (`"LLMANS"` in this environment) with an empty resource
list, as the claim states. -/
theorem c1_contextless_rejected_cex :
    (chatEndpoint baseChatEnv storeC1 "s0" "q" "t1" "t2").result = ChatHttpResult.badRequest ∧
    (chatEndpoint baseChatEnv storeC1 "s0" "q" "t1" "t2").events = [] ∧
    (chatEndpoint baseChatEnv storeC1 "s0" "q" "t1" "t2").result ≠
      ChatHttpResult.ok "LLMANS" [] :=
  ⟨rfl, rfl, by decide⟩

/-- C1 (amended): a chat call on a session whose context is not ready is
rejected with a 400 before any node phase runs: the store is unchanged and
neither the vector index, nor web search, nor the completion service is
invoked (the event trace is empty); no answer is returned. -/
theorem c1_chat_not_ready_rejected (env : ChatEnv) (store : Store) (sid q ts1 ts2 : String)
    (s : SessionData) (hs : getSession store sid = some s) (h : s.contextIsReady = false) :
    chatEndpoint env store sid q ts1 ts2 =
      { store := store, events := [], result := ChatHttpResult.badRequest } := by
  simp [chatEndpoint, hs, h]

/-- Witness for C1 at a concrete store. -/
theorem c1_chat_not_ready_rejected_witness :
    chatEndpoint baseChatEnv storeC1 "s0" "hello" "a" "b" =
      { store := storeC1, events := [], result := ChatHttpResult.badRequest } :=
  c1_chat_not_ready_rejected baseChatEnv storeC1 "s0" "hello" "a" "b" (baseSession "s0") rfl rfl

/-- C2 counterexample: with the `update_session` passthrough among the
operations, a state violating the invariant is reachable in two steps:
create a session, then apply the updates dictionary
`{"context_is_ready": true}` — the stored record then has
`context_is_ready=true` and empty `active_namespaces`. -/
theorem c2_manual_update_breaks_invariant :
    Relation.ReflTransGen Step emptyStore c2Store2 ∧
    c2Store2 "abc" = some c2BadRecord ∧
    c2BadRecord.contextIsReady = true ∧ c2BadRecord.activeNamespaces = [] := by
  refine ⟨?_, by decide, rfl, rfl⟩
  exact Relation.ReflTransGen.tail
    (Relation.ReflTransGen.tail Relation.ReflTransGen.refl
      (Step.sys (SysStep.create emptyStore "abc" "website" "https://x.example" rfl)))
    (Step.manualUpdate c2Store1 "abc" c2Updates)

/-- C2 (amended): in every session state reachable by the system's own
operations — session create, ingestion flow, FAQ request, FAQ task, chat
turn — a record with `context_is_ready=true` has non-empty
`active_namespaces`.  The arbitrary-updates `update_session` passthrough is
excluded: it can set the flag directly (see the counterexample). -/
theorem c2_sys_reachable_invariant (store : Store)
    (h : Relation.ReflTransGen SysStep emptyStore store) : Inv store := by
  induction h with
  | refl =>
    intro sid s hs hflag
    exact absurd hs (by simp [emptyStore])
  | tail _ hstep ih => exact inv_sysStep hstep ih

/-- Witness for C2: the invariant holds after a concrete create step. -/
theorem c2_sys_reachable_invariant_witness :
    Inv (createSession emptyStore "w2" "website" "https://w.example").1 :=
  c2_sys_reachable_invariant _
    (Relation.ReflTransGen.tail Relation.ReflTransGen.refl
      (SysStep.create emptyStore "w2" "website" "https://w.example" rfl))

theorem collectSearch_no_escalation_events (env : QueryEnv) (cols : List String) :
    Event.webSearchCall ∉ (collectSearch env cols).1 ∧
    Event.llmCall ∉ (collectSearch env cols).1 := by
  induction cols with
  | nil => simp [collectSearch]
  | cons c rest ih =>
    simp only [collectSearch]
    split
    · split
      · simp
      · simp [ih.1, ih.2]
    · simp [ih.1, ih.2]

theorem queryContent_search_error (env : QueryEnv) (store : Store) (sid q : String)
    (hclient : env.clientOk = true) (hembed : env.embedOk = true) (s : SessionData)
    (hs : getSession store sid = some s) (hns : s.activeNamespaces.isEmpty = false)
    (herr : (collectSearch env s.activeNamespaces).2 = Except.error ()) :
    queryContent env store sid q =
      (Event.connectQdrant :: Event.embedQuery :: (collectSearch env s.activeNamespaces).1,
        internalErrMsg, []) := by
  simp [queryContent, hclient, hembed, hs, hns, herr]

/-- C4 counterexample: in an environment where the Qdrant `search` call
raises, the chat node's exec is not escalated to web search (no
`webSearchCall` event) and answers the fixed internal-error message —
whereas the zero-chunks answer does satisfy the insufficiency test the
escalation uses.  The exception is caught, not propagated, but it is not
treated like the zero-chunks case. -/
theorem c4_search_exception_no_escalation_cex :
    envC4.qenv.searchResult "c0" = Except.error () ∧
    (execNode envC4 storeC4 (some "q", [], "s4", false) none).2 =
      ExecOutcome.done internalErrMsg [] Action.default ∧
    Event.webSearchCall ∉ (execNode envC4 storeC4 (some "q", [], "s4", false) none).1 ∧
    insufficientAnswer noContextMsg = true ∧
    insufficientAnswer internalErrMsg = false := by
  refine ⟨rfl, by decide, by decide, by decide, by decide⟩

/-- C4 (amended): an exception raised while searching the vector index is
caught inside `query_content` and not propagated — exec completes normally —
but it is not treated like the zero-chunks case: the answer becomes the
fixed internal-error message with an empty resource list, and neither web
search nor the completion service is invoked. -/
theorem c4_search_exception_caught_not_escalated (env : ChatEnv) (store : Store)
    (hist : List ChatEntry) (sid q : String)
    (hq : pyLower q.data ≠ "exit".data)
    (hclient : env.qenv.clientOk = true) (hembed : env.qenv.embedOk = true)
    (s : SessionData) (hs : getSession store sid = some s)
    (hns : s.activeNamespaces.isEmpty = false)
    (herr : (collectSearch env.qenv s.activeNamespaces).2 = Except.error ()) :
    (execNode env store (some q, hist, sid, false) none).2 =
      ExecOutcome.done internalErrMsg [] Action.default ∧
    Event.webSearchCall ∉ (execNode env store (some q, hist, sid, false) none).1 ∧
    Event.llmCall ∉ (execNode env store (some q, hist, sid, false) none).1 := by
  have hqc := queryContent_search_error env.qenv store sid q hclient hembed s hs hns herr
  have hins : insufficientAnswer internalErrMsg = false := by decide
  have hcs1 := (collectSearch_no_escalation_events env.qenv s.activeNamespaces).1
  have hcs2 := (collectSearch_no_escalation_events env.qenv s.activeNamespaces).2
  refine ⟨?_, ?_, ?_⟩ <;>
    simp [execNode, truthy, hq, execBody, hqc, hins, hcs1, hcs2]

/-- Witness for C4 at the concrete environment whose search raises. -/
theorem c4_search_exception_caught_not_escalated_witness :
    (execNode envC4 storeC4 (some "w", [], "s4", false) none).2 =
      ExecOutcome.done internalErrMsg [] Action.default ∧
    Event.webSearchCall ∉ (execNode envC4 storeC4 (some "w", [], "s4", false) none).1 ∧
    Event.llmCall ∉ (execNode envC4 storeC4 (some "w", [], "s4", false) none).1 :=
  c4_search_exception_caught_not_escalated envC4 storeC4 [] "s4" "w" (by decide) rfl rfl
    { baseSession "s4" with contextIsReady := true, activeNamespaces := ["c0"] } rfl rfl rfl

/-- C5: on a context-ready turn whose vector-path answer is insufficient
(the zero-chunks reply contains "no relevant context", so it always counts),
web search is invoked first; when it returns non-empty text the answer is
that text behind the `(Web Search Result)` marker and the synthetic
`{source: "web_search", snippet}` resource is appended last; only when web
search returns empty text is the completion service called on the chat
transcript. -/
theorem c5_insufficient_answer_web_first (env : ChatEnv) (store : Store)
    (hist : List ChatEntry) (sid q : String)
    (hq : pyLower q.data ≠ "exit".data)
    (hins : insufficientAnswer (queryContent env.qenv store sid q).2.1 = true) :
    insufficientAnswer noContextMsg = true ∧
    (env.webResult ≠ "" →
      execNode env store (some q, hist, sid, false) none =
        ((queryContent env.qenv store sid q).1 ++ [Event.webSearchCall],
          ExecOutcome.done ("(Web Search Result) " ++ env.webResult)
            ((queryContent env.qenv store sid q).2.2 ++
              [{ source := "web_search", textSnippet := env.webResult }]) Action.default)) ∧
    (env.webResult = "" →
      (execNode env store (some q, hist, sid, false) none).1 =
        (queryContent env.qenv store sid q).1 ++ [Event.webSearchCall, Event.llmCall] ∧
      (∀ a2, env.llm hist none = LlmOutcome.ok a2 →
        (execNode env store (some q, hist, sid, false) none).2 =
          ExecOutcome.done a2 (queryContent env.qenv store sid q).2.2 Action.default)) := by
  refine ⟨by decide, ?_, ?_⟩
  · intro hw
    simp [execNode, truthy, hq, execBody, hins, hw]
  · intro hw
    constructor
    · cases hllm : env.llm hist none <;>
        simp [execNode, truthy, hq, execBody, hins, hw, hllm]
    · intro a2 hllm
      simp [execNode, truthy, hq, execBody, hins, hw, hllm]

/-- Witness for C5: zero chunks found, web search answers `"WEBC5"`. -/
theorem c5_insufficient_answer_web_first_witness :
    execNode envC5 storeC5 (some "q", [], "s5", false) none =
      ((queryContent envC5.qenv storeC5 "s5" "q").1 ++ [Event.webSearchCall],
        ExecOutcome.done ("(Web Search Result) " ++ envC5.webResult)
          ((queryContent envC5.qenv storeC5 "s5" "q").2.2 ++
            [{ source := "web_search", textSnippet := envC5.webResult }]) Action.default) :=
  (c5_insufficient_answer_web_first envC5 storeC5 [] "s5" "q" (by decide) (by decide)).2.1
    (by decide)

/-- C6 (code bug): evaluated at the failing input — a ready session and the
question "hello" — the chat endpoint as chat.py actually drives it answers
the generic 500 detail: `prep` persists exactly one user entry, then the
miscalled `exec` (line 31 passes only `prep_res` to a method declared
`exec(self, prep_res, shared)`) raises `TypeError`, and the handler stores
`status=error`.  No assistant entry is ever appended, so the claimed
non-error completion with exactly one assistant entry never happens. -/
theorem c6_chat_turn_type_error :
    (chatEndpoint baseChatEnv storeC6 "s6" "hello" "t1" "t2").result =
      ChatHttpResult.serverError chatGenericDetail ∧
    (chatEndpoint baseChatEnv storeC6 "s6" "hello" "t1" "t2").events = [] ∧
    (chatEndpoint baseChatEnv storeC6 "s6" "hello" "t1" "t2").store "s6" =
      some { baseSession "s6" with
             contextIsReady := true
             activeNamespaces := ["c6"]
             chatHistory := [userEntry "hello" "t1"]
             status := Status.error
             message := chatTypeErrorMessage } ∧
    ([userEntry "hello" "t1"].filter (fun e => e.role == "assistant")).length = 0 := by
  refine ⟨rfl, rfl, by decide, by decide⟩

end RagChat
